import Mathlib

/-!
Verification development for the face-recognition access-control kiosk
(`reconhecimento_niveis`).  The definitions below are shallow embeddings of
the Python source:

* `app.py` — the live recognition decision engine
  (`reconhecer_faces_webcam`, `obter_nivel_e_status`,
  `obter_imagens_e_rotulos`);
* `utils_admin.py` — administration workflows and image utilities
  (`excluir_usuario`, `invalidar_modelo_treinado`, `tirar_e_salvar_fotos`,
  `aplicar_data_augmentation`);
* `admin_app.py` — the standalone admin panel's own copies of the
  add-photos and delete workflows.

Machine-opaque primitives (camera frames, the Haar cascade detector, the
LBPH classifier, pixel rasters) are modelled symbolically: a frame yields a
list of detections, each carrying the classifier's `(label, distance)`
output; images are terms of an inductive type recording the processing
operations applied to them; the quality filter and the detector are
function parameters where their internals do not matter to the property.
-/

/-- `LIMITE_CONFIANCA` from `app.py` line 54: the strict upper bound on the
LBPH distance for a prediction to be accepted.  Distances are real-valued
in the source; we model them as rationals. -/
def LIMITE_CONFIANCA : ℚ := 50

/-- `MIN_TAMANHO_ROSTO` from `app.py` line 57: minimum face box size. -/
def MIN_TAMANHO_ROSTO : Nat := 80

/-- `MAX_TENTATIVAS_RECONHECIMENTO` from `app.py` line 58: consecutive
recognitions required before the grant path may fire. -/
def MAX_TENTATIVAS_RECONHECIMENTO : Nat := 3

/-- `USAR_DATA_AUGMENTATION` from `app.py` line 61. -/
def USAR_DATA_AUGMENTATION : Bool := true

/-- One record of `userData.json`: `{"nome": ..., "id": ...}`. -/
structure Usuario where
  nome : String
  id : String
deriving DecidableEq, Repr

/-- The read-only context of a recognition session: `ids_treinamento`
(label-order sidecar), `dados_usuario` (`userData.json`, an insertion-ordered
map cpf -> record) and `dados_validacao` (`validation.json`, an
insertion-ordered map tier-name -> member cpf list). -/
structure Contexto where
  ids : List String
  usuarios : List (String × Usuario)
  validacao : List (String × List String)
deriving DecidableEq, Repr

/-- One detected face box together with the classifier output
`reconhecedor.predict` produced for its cropped region: the box size,
the integer label and the distance (`confianca` in the source). -/
structure Detecao where
  w : Nat
  h : Nat
  rotulo : Nat
  confianca : ℚ
deriving DecidableEq, Repr

/-- The mutable per-session state of `reconhecer_faces_webcam`
(`app.py` lines 280-282): `acesso_concedido_tempo`,
`tentativas_reconhecimento`, `ultimo_rosto_reconhecido`. -/
structure Estado where
  acessoConcedidoTempo : Option Nat
  tentativasReconhecimento : Nat
  ultimoRostoReconhecido : Option String
deriving DecidableEq, Repr

/-- The initial state of the recognition loop (`app.py` lines 280-282). -/
def estadoInicial : Estado :=
  { acessoConcedidoTempo := none
    tentativasReconhecimento := 0
    ultimoRostoReconhecido := none }

/-- `obter_nivel_e_status` (`app.py` lines 236-255): scan the validation
table in insertion order; the first tier whose member list contains the cpf
wins, otherwise the unknown/unauthorized sentinel. -/
def obter_nivel_e_status (cpf : String) :
    List (String × List String) → String × String
  | [] => ("Nível Desconhecido", "Não Autorizado")
  | (nivel, pessoas) :: resto =>
      if cpf ∈ pessoas then (nivel, "Autorizado")
      else obter_nivel_e_status cpf resto

/-- `app.py` line 321: `next((cpf for cpf, data in dados_usuario.items() if
data['id'] == id_unico), None)` — the first cpf whose record carries the
given identity token. -/
def encontrar_cpf (usuarios : List (String × Usuario)) (idUnico : String) :
    Option String :=
  (usuarios.find? (fun p => p.2.id == idUnico)).map (·.1)

/-- Resolution of a classifier label to a cpf
(`app.py` lines 319-321): `ids_treinamento[rotulo_id]` followed by the
reverse lookup in `dados_usuario`.  Only evaluated under the guard
`rotulo < ids.length`, so the `getD` default is never reached there. -/
def resolver_cpf (ctx : Contexto) (rotulo : Nat) : Option String :=
  encontrar_cpf ctx.usuarios (ctx.ids.getD rotulo "")

/-- The acceptance test of `app.py` line 317:
`confianca < LIMITE_CONFIANCA and rotulo_id < len(ids_treinamento)`. -/
def predicao_aceita (ids : List String) (d : Detecao) : Prop :=
  d.confianca < LIMITE_CONFIANCA ∧ d.rotulo < ids.length

instance (ids : List String) (d : Detecao) : Decidable (predicao_aceita ids d) :=
  inferInstanceAs (Decidable (_ ∧ _))

/-- Result of processing one face box (or one whole frame): either the loop
continues with an updated state, or the grant event fired with the resolved
tier and the session terminates (`app.py` lines 374-378). -/
inductive PassoRosto where
  | continuar (s : Estado)
  | concedido (nivel : String)
deriving DecidableEq, Repr

/-- The accepted branch of the per-box logic (`app.py` lines 318-386):
label resolution, the consistency debounce (lines 324-329), the access
policy lookup and the grant decision (lines 331-348), and the
orphaned-token branch (lines 384-386), which resets the timer and the
counter but leaves `ultimo_rosto_reconhecido` untouched. -/
def ramo_aceito (ctx : Contexto) (s : Estado) (d : Detecao) : PassoRosto :=
  match resolver_cpf ctx d.rotulo with
  | some cpf =>
      let s1 : Estado :=
        if s.ultimoRostoReconhecido = some cpf then
          { s with tentativasReconhecimento := s.tentativasReconhecimento + 1 }
        else
          { s with tentativasReconhecimento := 1
                   ultimoRostoReconhecido := some cpf }
      let ns := obter_nivel_e_status cpf ctx.validacao
      if ns.2 = "Autorizado" ∧
          MAX_TENTATIVAS_RECONHECIMENTO ≤ s1.tentativasReconhecimento then
        .concedido ns.1
      else
        .continuar s1
  | none =>
      .continuar { s with acessoConcedidoTempo := none
                          tentativasReconhecimento := 0 }

/-- One iteration of the `for (x, y, w, h) in rostos_detectados` loop of
`reconhecer_faces_webcam` (`app.py` lines 307-393): skip undersized boxes,
run the acceptance test, and on rejection reset the full state
(lines 387-390). -/
def processar_rosto (ctx : Contexto) (s : Estado) (d : Detecao) : PassoRosto :=
  if d.w < MIN_TAMANHO_ROSTO ∨ d.h < MIN_TAMANHO_ROSTO then
    .continuar s
  else if predicao_aceita ctx.ids d then
    ramo_aceito ctx s d
  else
    .continuar { acessoConcedidoTempo := none
                 tentativasReconhecimento := 0
                 ultimoRostoReconhecido := none }

/-- The whole box loop of one frame: boxes in detector order, with the
early `return` of the grant path aborting the remaining boxes. -/
def processar_rostos (ctx : Contexto) (s : Estado) :
    List Detecao → PassoRosto
  | [] => .continuar s
  | d :: ds =>
      match processar_rosto ctx s d with
      | .concedido nivel => .concedido nivel
      | .continuar s1 => processar_rostos ctx s1 ds

/-- One frame of the recognition loop (`app.py` lines 285-393): when the
detector returns zero boxes the state is reset to initial (lines 301-305),
otherwise every box is processed in order. -/
def processar_frame (ctx : Contexto) (s : Estado) (dets : List Detecao) :
    PassoRosto :=
  match dets with
  | [] => .continuar estadoInicial
  | _ :: _ => processar_rostos ctx s dets

/-- Several consecutive frames, with the grant path terminal. -/
def processar_frames (ctx : Contexto) (s : Estado) :
    List (List Detecao) → PassoRosto
  | [] => .continuar s
  | f :: fs =>
      match processar_frame ctx s f with
      | .concedido nivel => .concedido nivel
      | .continuar s1 => processar_frames ctx s1 fs

/-- One loop iteration's external input: the detections of the frame just
read, and whether `cv2.waitKey` reported the operator's quit key after the
frame was rendered (`app.py` line 396). -/
structure FrameEvento where
  dets : List Detecao
  sair : Bool
deriving DecidableEq, Repr

/-- Observable outcome of one recognition session: the grant event (tier)
if one was emitted, how many times `captura_de_video.release()` ran, and
how many frames were processed. -/
structure SessaoResultado where
  concessao : Option String
  liberacoes : Nat
  framesProcessados : Nat
deriving DecidableEq, Repr

/-- The session loop of `reconhecer_faces_webcam` over a finite input
trace.  The grant path releases the device and returns (lines 374-378);
the quit key breaks the loop, after which the device is released
(lines 396-400); exhausting the trace models `ret == False` (camera
failure, line 287), which also breaks to the same release. -/
def executar_sessao (ctx : Contexto) (s : Estado) :
    List FrameEvento → SessaoResultado
  | [] => { concessao := none, liberacoes := 1, framesProcessados := 0 }
  | ev :: resto =>
      match processar_frame ctx s ev.dets with
      | .concedido nivel =>
          { concessao := some nivel, liberacoes := 1, framesProcessados := 1 }
      | .continuar s1 =>
          if ev.sair then
            { concessao := none, liberacoes := 1, framesProcessados := 1 }
          else
            let r := executar_sessao ctx s1 resto
            { r with framesProcessados := r.framesProcessados + 1 }

/-!
### Administration workflows

The admin-side state: the two JSON tables, the set of existing photo
directories (keyed by identity token), and the presence of the two
persisted model artifacts (`modelo_lbph.yml` and `mapeamento_ids.json`).
JSON persistence is whole-file rewrite of the in-memory tables, so the
model state after a save is the tables themselves.
-/

/-- The durable state the administration workflows act on. -/
structure Dados where
  usuarios : List (String × Usuario)
  validacao : List (String × List String)
  pastas : List String
  modeloSalvo : Bool
  mapaIds : Bool
deriving DecidableEq, Repr

/-- `invalidar_modelo_treinado` (`utils_admin.py` lines 353-363): remove
each persisted model artifact if present. -/
def invalidar_modelo_treinado (d : Dados) : Dados :=
  { d with modeloSalvo := false, mapaIds := false }

/-- The tier-removal loop shared by both delete implementations
(`utils_admin.py` lines 769-772, `admin_app.py` lines 130-133): scan the
tiers in insertion order; in the first tier whose member list contains the
cpf, remove the first occurrence, then `break` — later tiers are left
untouched. -/
def remover_cpf_validacao (cpf : String) :
    List (String × List String) → List (String × List String)
  | [] => []
  | (nivel, pessoas) :: resto =>
      if cpf ∈ pessoas then (nivel, pessoas.erase cpf) :: resto
      else (nivel, pessoas) :: remover_cpf_validacao cpf resto

namespace UtilsAdmin

/-- `excluir_usuario` (`utils_admin.py` lines 753-779), after the cpf
prompt: the lookup guard, the confirmation dialog, and the `try` block
containing photo-directory removal, tier removal, identity-table removal,
the two saves, and model invalidation.  `falhaPasta` is true when
`shutil.rmtree` raises; the single `except` around the whole block then
reports the error with none of the later steps executed.  Returns the
resulting state and the surfaced error message, if any. -/
def excluir_usuario_com_falha (d : Dados) (cpf : String)
    (confirmado : Bool) (falhaPasta : Bool) : Dados × Option String :=
  match (d.usuarios.find? (fun p => p.1 == cpf)).map (·.2) with
  | none => (d, some "CPF não encontrado.")
  | some u =>
      if ¬ confirmado then (d, none)
      else if falhaPasta then
        (d, some "Ocorreu um erro ao excluir o usuário")
      else
        let d1 := { d with pastas := d.pastas.erase u.id }
        let d2 := { d1 with validacao := remover_cpf_validacao cpf d1.validacao }
        let d3 := { d2 with
          usuarios := d2.usuarios.eraseP (fun p => p.1 == cpf) }
        (invalidar_modelo_treinado d3, none)

/-- The normal run of `utils_admin.excluir_usuario` (no I/O failure). -/
def excluir_usuario (d : Dados) (cpf : String) (confirmado : Bool) : Dados :=
  (excluir_usuario_com_falha d cpf confirmado false).1

/-- The post-capture tail of `utils_admin.adicionar_mais_fotos`
(lines 639-653): model invalidation happens exactly when at least one
photo was added.  The capture count is an input since capture itself is
operator-driven. -/
def adicionar_mais_fotos (d : Dados) (cpf : String)
    (fotosAdicionadas : Nat) : Dados :=
  match (d.usuarios.find? (fun p => p.1 == cpf)).map (·.2) with
  | none => d
  | some _ =>
      if fotosAdicionadas > 0 then invalidar_modelo_treinado d else d

end UtilsAdmin

namespace AdminApp

/-- `excluir_usuario` (`admin_app.py` lines 106-145): the same destructive
sequence as the utils version — photo directory, first containing tier,
identity table, two saves — but with no call to
`invalidar_modelo_treinado` anywhere in the module. -/
def excluir_usuario (d : Dados) (cpf : String) (confirmado : Bool) : Dados :=
  match (d.usuarios.find? (fun p => p.1 == cpf)).map (·.2) with
  | none => d
  | some u =>
      if ¬ confirmado then d
      else
        let d1 := { d with pastas := d.pastas.erase u.id }
        let d2 := { d1 with validacao := remover_cpf_validacao cpf d1.validacao }
        { d2 with usuarios := d2.usuarios.eraseP (fun p => p.1 == cpf) }

/-- `adicionar_mais_fotos` (`admin_app.py` lines 51-103): after the
capture loop ends the function only reports the count; the persisted model
artifacts are never touched (no import of `invalidar_modelo_treinado`). -/
def adicionar_mais_fotos (d : Dados) (cpf : String)
    (fotosAdicionadas : Nat) : Dados :=
  match (d.usuarios.find? (fun p => p.1 == cpf)).map (·.2) with
  | none => d
  | some _ => d

end AdminApp

/-!
### Image pipeline

Rasters are modelled symbolically: a term of `Imagem` records which source
frame an image came from and which operations were applied to it, which is
exactly what the capture/training claims are about.  The quality filter and
the face detector are black-box function parameters.
-/

/-- An axis-aligned face bounding box as returned by the detector. -/
structure Caixa where
  x : Nat
  y : Nat
  w : Nat
  h : Nat
deriving DecidableEq, Repr

/-- Symbolic rasters: raw camera frames and the image operations the
source applies to them (`frame[y:y+h, x:x+w]`, `cv2.cvtColor(..., BGR2GRAY)`,
`cv2.resize`, `cv2.convertScaleAbs`). -/
inductive Imagem where
  | quadro (n : Nat)
  | recorte (img : Imagem) (c : Caixa)
  | cinza (img : Imagem)
  | redimensionada (img : Imagem) (w h : Nat)
  | escalaAbs (img : Imagem) (alfa beta : ℚ)
deriving DecidableEq, Repr

/-- Whether a raster is a grayscale image, i.e. the result of a
`cv2.cvtColor(..., COLOR_BGR2GRAY)` conversion. -/
def Imagem.ehCinza : Imagem → Bool
  | .cinza _ => true
  | _ => false

/-- `max(rostos_detectados, key=lambda x: x[2] * x[3])`
(`utils_admin.py` line 510): the first box of maximal area. -/
def maior_rosto : List Caixa → Option Caixa
  | [] => none
  | c :: cs =>
      some (cs.foldl
        (fun melhor r => if r.w * r.h > melhor.w * melhor.h then r else melhor)
        c)

/-- The accepted-capture step of `tirar_e_salvar_fotos`
(`utils_admin.py` lines 505-523): on an `'s'` keypress with at least one
detected box, take the largest box, crop the **color** frame to it,
convert the crop to grayscale, run the quality filter on the grayscale
version, and on pass write `rosto_extraido` — the color crop — to disk.
Returns the written raster, or `none` when nothing is written. -/
def tirar_foto (validar : Imagem → Bool) (frame : Imagem)
    (rostos : List Caixa) : Option Imagem :=
  match maior_rosto rostos with
  | none => none
  | some c =>
      let rostoExtraido := Imagem.recorte frame c
      let rostoCinza := Imagem.cinza rostoExtraido
      if validar rostoCinza then some rostoExtraido else none

/-- `aplicar_data_augmentation` (`utils_admin.py` lines 292-317): the
original image, a brightness variant (`alpha=1.05, beta=0`) and a contrast
variant (`alpha=0.98, beta=0`), in that order. -/
def aplicar_data_augmentation (imagem : Imagem) : List Imagem :=
  [imagem,
   Imagem.escalaAbs imagem (105 / 100) 0,
   Imagem.escalaAbs imagem (98 / 100) 0]

/-- `nome_imagem.lower().endswith(('.jpg', '.png', '.jpeg'))`
(`app.py` line 131), computed over the filename's character list
(Lean's `String.endsWith` does not evaluate inside the kernel). -/
def extensao_valida (nome : String) : Bool :=
  let n := nome.data.map Char.toLower
  ".jpg".data.isSuffixOf n || ".png".data.isSuffixOf n ||
    ".jpeg".data.isSuffixOf n

/-- One file of an identity's photo directory, as the training builder
sees it: the filename and the result of
`cv2.imread(caminho, IMREAD_GRAYSCALE)` (`none` models an unreadable
file). -/
structure Arquivo where
  nome : String
  conteudo : Option Imagem
deriving DecidableEq, Repr

/-- The per-file body of `obter_imagens_e_rotulos` (`app.py` lines
130-170): extension filter, grayscale load, the quality re-check of
line 140, training-tuned face detection, crop of the first detected box,
resize to 200×200, and augmentation (enabled by `USAR_DATA_AUGMENTATION`).
Returns the (sample, label) pairs the file contributes. -/
def processar_arquivo (validar : Imagem → Bool)
    (detectar : Imagem → List Caixa) (rotulo : Nat) (arq : Arquivo) :
    List (Imagem × Nat) :=
  if ¬ extensao_valida arq.nome then []
  else
    match arq.conteudo with
    | none => []
    | some img =>
        if ¬ validar img then []
        else
          match detectar img with
          | [] => []
          | c :: _ =>
              let roi := Imagem.recorte img c
              let roiRed := Imagem.redimensionada roi 200 200
              if USAR_DATA_AUGMENTATION then
                (aplicar_data_augmentation roiRed).map (fun i => (i, rotulo))
              else
                [(roiRed, rotulo)]

/-!
### Concrete example data

A small enrolled population used to instantiate the theorems below:
Alice is enrolled and authorized at tier "Nivel 1"; Bruno is enrolled but
listed in no tier (unauthorized); the third training label carries an
identity token with no matching record (an orphaned label).
-/

/-- Example session context. -/
def ctxExemplo : Contexto :=
  { ids := ["tok-alice", "tok-bruno", "tok-orfao"]
    usuarios := [("11122233344", ⟨"Alice", "tok-alice"⟩),
                 ("55566677788", ⟨"Bruno", "tok-bruno"⟩)]
    validacao := [("Nivel 1", ["11122233344"]), ("Nivel 2", [])] }

/-- A well-sized detection the classifier matches to label 0 (Alice) with
distance 30, well under the threshold. -/
def dAlice : Detecao := { w := 100, h := 100, rotulo := 0, confianca := 30 }

/-- A well-sized detection matched to label 1 (Bruno, unauthorized). -/
def dBruno : Detecao := { w := 100, h := 100, rotulo := 1, confianca := 30 }

/-- A well-sized detection matched to label 2, the orphaned token. -/
def dOrfao : Detecao := { w := 100, h := 100, rotulo := 2, confianca := 30 }

/-- A detection whose distance sits exactly on `LIMITE_CONFIANCA`. -/
def dLimite : Detecao := { w := 100, h := 100, rotulo := 0, confianca := 50 }

/-- Three consecutive frames each showing Alice: enough for the grant. -/
def evsConcessao : List FrameEvento :=
  [⟨[dAlice], false⟩, ⟨[dAlice], false⟩, ⟨[dAlice], false⟩]

/-- Example admin-side state: Alice enrolled in tier 1, photos on disk,
a trained model persisted. -/
def dadosExemplo : Dados :=
  { usuarios := [("11122233344", ⟨"Alice", "tok-alice"⟩)]
    validacao := [("Nivel 1", ["11122233344"]), ("Nivel 2", [])]
    pastas := ["tok-alice"]
    modeloSalvo := true
    mapaIds := true }

/-- Admin-side state where the single-tier invariant is violated: Alice's
cpf appears in the member lists of two different tiers. -/
def dadosDoisNiveis : Dados :=
  { usuarios := [("11122233344", ⟨"Alice", "tok-alice"⟩)]
    validacao := [("Nivel 1", ["11122233344"]), ("Nivel 2", ["11122233344"])]
    pastas := ["tok-alice"]
    modeloSalvo := true
    mapaIds := true }

/-- An example face box. -/
def caixaExemplo : Caixa := { x := 10, y := 10, w := 120, h := 120 }

/-!
## Theorems
-/

theorem tamanho_ok {d : Detecao} (hw : MIN_TAMANHO_ROSTO ≤ d.w)
    (hh : MIN_TAMANHO_ROSTO ≤ d.h) :
    ¬ (d.w < MIN_TAMANHO_ROSTO ∨ d.h < MIN_TAMANHO_ROSTO) := by
  push_neg
  exact ⟨hw, hh⟩

/-- C1: a per-frame prediction is accepted exactly when its distance is
strictly below `LIMITE_CONFIANCA` and its label indexes into
`ids_treinamento`; acceptance routes the box into the resolution branch,
rejection resets the whole state, and a distance exactly equal to the
threshold is rejected (strict `<`, not `<=`). -/
theorem C1_aceitacao_estrita (ctx : Contexto) (s : Estado) (d : Detecao)
    (hw : MIN_TAMANHO_ROSTO ≤ d.w) (hh : MIN_TAMANHO_ROSTO ≤ d.h) :
    (predicao_aceita ctx.ids d ↔
      d.confianca < LIMITE_CONFIANCA ∧ d.rotulo < ctx.ids.length) ∧
    (predicao_aceita ctx.ids d →
      processar_rosto ctx s d = ramo_aceito ctx s d) ∧
    (¬ predicao_aceita ctx.ids d →
      processar_rosto ctx s d =
        .continuar { acessoConcedidoTempo := none
                     tentativasReconhecimento := 0
                     ultimoRostoReconhecido := none }) ∧
    (d.confianca = LIMITE_CONFIANCA →
      processar_rosto ctx s d =
        .continuar { acessoConcedidoTempo := none
                     tentativasReconhecimento := 0
                     ultimoRostoReconhecido := none }) := by
  have hs := tamanho_ok hw hh
  refine ⟨Iff.rfl, ?_, ?_, ?_⟩
  · intro hacc
    simp [processar_rosto, hs, hacc]
  · intro hrej
    simp [processar_rosto, hs, hrej]
  · intro heq
    have hrej : ¬ predicao_aceita ctx.ids d := by
      rintro ⟨hlt, -⟩
      rw [heq] at hlt
      exact lt_irrefl _ hlt
    simp [processar_rosto, hs, hrej]

/-- Witness for C1: the boundary detection `dLimite` (distance exactly 50)
is rejected and resets the state. -/
theorem C1_aceitacao_estrita_witness :
    dLimite.confianca = LIMITE_CONFIANCA ∧
    processar_rosto ctxExemplo estadoInicial dLimite =
      .continuar { acessoConcedidoTempo := none
                   tentativasReconhecimento := 0
                   ultimoRostoReconhecido := none } := by
  refine ⟨by decide, ?_⟩
  exact (C1_aceitacao_estrita ctxExemplo estadoInicial dLimite
    (by decide) (by decide)).2.2.2 (by decide)


theorem passo_mesmo_cpf (ctx : Contexto) (s : Estado) (d : Detecao)
    (cpf : String) (hw : MIN_TAMANHO_ROSTO ≤ d.w)
    (hh : MIN_TAMANHO_ROSTO ≤ d.h) (hacc : predicao_aceita ctx.ids d)
    (hres : resolver_cpf ctx d.rotulo = some cpf)
    (hu : s.ultimoRostoReconhecido = some cpf) :
    processar_rosto ctx s d =
      .concedido (obter_nivel_e_status cpf ctx.validacao).1 ∨
    processar_rosto ctx s d =
      .continuar { acessoConcedidoTempo := s.acessoConcedidoTempo
                   tentativasReconhecimento := s.tentativasReconhecimento + 1
                   ultimoRostoReconhecido := some cpf } := by
  have hs := tamanho_ok hw hh
  by_cases hg : (obter_nivel_e_status cpf ctx.validacao).2 = "Autorizado" ∧
      MAX_TENTATIVAS_RECONHECIMENTO ≤ s.tentativasReconhecimento + 1
  · left
    simp [processar_rosto, hs, hacc, ramo_aceito, hres, hu, hg]
  · right
    simp [processar_rosto, hs, hacc, ramo_aceito, hres, hu, hg]

theorem passo_outro_cpf (ctx : Contexto) (s : Estado) (d : Detecao)
    (cpf : String) (hw : MIN_TAMANHO_ROSTO ≤ d.w)
    (hh : MIN_TAMANHO_ROSTO ≤ d.h) (hacc : predicao_aceita ctx.ids d)
    (hres : resolver_cpf ctx d.rotulo = some cpf)
    (hu : s.ultimoRostoReconhecido ≠ some cpf) :
    processar_rosto ctx s d =
      .continuar { acessoConcedidoTempo := s.acessoConcedidoTempo
                   tentativasReconhecimento := 1
                   ultimoRostoReconhecido := some cpf } := by
  have hs := tamanho_ok hw hh
  simp [processar_rosto, hs, hacc, ramo_aceito, hres, hu,
    MAX_TENTATIVAS_RECONHECIMENTO]

theorem frames_mesmo_cpf (ctx : Contexto) (d : Detecao) (cpf : String)
    (hw : MIN_TAMANHO_ROSTO ≤ d.w) (hh : MIN_TAMANHO_ROSTO ≤ d.h)
    (hacc : predicao_aceita ctx.ids d)
    (hres : resolver_cpf ctx d.rotulo = some cpf) :
    ∀ (m : Nat) (s : Estado), s.ultimoRostoReconhecido = some cpf →
      ∀ s2, processar_frames ctx s (List.replicate m [d]) = .continuar s2 →
        s2.tentativasReconhecimento = s.tentativasReconhecimento + m ∧
        s2.ultimoRostoReconhecido = some cpf ∧
        s2.acessoConcedidoTempo = s.acessoConcedidoTempo := by
  intro m
  induction m with
  | zero =>
      intro s hu s2 h
      simp only [List.replicate, processar_frames,
        PassoRosto.continuar.injEq] at h
      subst h
      exact ⟨rfl, hu, rfl⟩
  | succ k ih =>
      intro s hu s2 h
      rw [List.replicate_succ] at h
      rcases passo_mesmo_cpf ctx s d cpf hw hh hacc hres hu with hg | hc
      · have hframe : processar_frame ctx s [d] =
            .concedido (obter_nivel_e_status cpf ctx.validacao).1 := by
          simp [processar_frame, processar_rostos, hg]
        simp only [processar_frames, hframe] at h
        cases h
      · have hframe : processar_frame ctx s [d] =
            .continuar { acessoConcedidoTempo := s.acessoConcedidoTempo
                         tentativasReconhecimento :=
                           s.tentativasReconhecimento + 1
                         ultimoRostoReconhecido := some cpf } := by
          simp [processar_frame, processar_rostos, hc]
        simp only [processar_frames, hframe] at h
        obtain ⟨h1, h2, h3⟩ := ih _ rfl s2 h
        have h1a : s2.tentativasReconhecimento =
            s.tentativasReconhecimento + 1 + k := h1
        have h3a : s2.acessoConcedidoTempo = s.acessoConcedidoTempo := h3
        exact ⟨by omega, h2, h3a⟩

/-- C2: fed N consecutive frames whose single accepted detection resolves
to the same cpf, the decision engine (whenever the session is still live,
i.e. the grant path has not terminated it) holds
`tentativas_reconhecimento = N` exactly; a zero-face frame resets the
state to initial (counter 0, no last identity, no grant timer); a frame
resolving to a different identity than the last one sets the counter to
exactly 1. -/
theorem C2_debounce (ctx : Contexto) (d : Detecao) (cpf : String) (N : Nat)
    (hw : MIN_TAMANHO_ROSTO ≤ d.w) (hh : MIN_TAMANHO_ROSTO ≤ d.h)
    (hacc : predicao_aceita ctx.ids d)
    (hres : resolver_cpf ctx d.rotulo = some cpf) (hN : 1 ≤ N) :
    (∀ s2, processar_frames ctx estadoInicial (List.replicate N [d]) =
        .continuar s2 →
      s2.tentativasReconhecimento = N ∧
      s2.ultimoRostoReconhecido = some cpf ∧
      s2.acessoConcedidoTempo = none) ∧
    (∀ s : Estado, processar_frame ctx s [] = .continuar estadoInicial) ∧
    (∀ (s : Estado) (d2 : Detecao) (cpf2 : String),
      MIN_TAMANHO_ROSTO ≤ d2.w → MIN_TAMANHO_ROSTO ≤ d2.h →
      predicao_aceita ctx.ids d2 → resolver_cpf ctx d2.rotulo = some cpf2 →
      s.ultimoRostoReconhecido ≠ some cpf2 →
      processar_rosto ctx s d2 =
        .continuar { acessoConcedidoTempo := s.acessoConcedidoTempo
                     tentativasReconhecimento := 1
                     ultimoRostoReconhecido := some cpf2 }) := by
  refine ⟨?_, fun s => rfl, fun s d2 cpf2 => passo_outro_cpf ctx s d2 cpf2⟩
  intro s2 h
  obtain ⟨m, rfl⟩ : ∃ m, N = m + 1 :=
    ⟨N - 1, (Nat.succ_pred_eq_of_pos hN).symm⟩
  rw [List.replicate_succ] at h
  have hstep : processar_rosto ctx estadoInicial d =
      .continuar { acessoConcedidoTempo := none
                   tentativasReconhecimento := 1
                   ultimoRostoReconhecido := some cpf } :=
    passo_outro_cpf ctx estadoInicial d cpf hw hh hacc hres
      (by simp [estadoInicial])
  have hframe : processar_frame ctx estadoInicial [d] =
      .continuar { acessoConcedidoTempo := none
                   tentativasReconhecimento := 1
                   ultimoRostoReconhecido := some cpf } := by
    simp [processar_frame, processar_rostos, hstep]
  simp only [processar_frames, hframe] at h
  obtain ⟨h1, h2, h3⟩ := frames_mesmo_cpf ctx d cpf hw hh hacc hres m _ rfl s2 h
  have h1a : s2.tentativasReconhecimento = 1 + m := h1
  exact ⟨by omega, h2, h3⟩

/-- Witness for C2: five consecutive frames of Bruno (enrolled, in no
tier, so the grant path never interrupts) drive the counter to exactly 5. -/
theorem C2_debounce_witness :
    (Estado.mk none 5 (some "55566677788")).tentativasReconhecimento = 5 ∧
    (Estado.mk none 5 (some "55566677788")).ultimoRostoReconhecido =
      some "55566677788" ∧
    (Estado.mk none 5 (some "55566677788")).acessoConcedidoTempo = none :=
  (C2_debounce ctxExemplo dBruno "55566677788" 5 (by decide) (by decide)
      (by decide) (by decide) (by decide)).1
    (Estado.mk none 5 (some "55566677788")) (by decide)

theorem sessao_libera_uma_vez (ctx : Contexto) :
    ∀ (evs : List FrameEvento) (s : Estado),
      (executar_sessao ctx s evs).liberacoes = 1 := by
  intro evs
  induction evs with
  | nil => intro s; rfl
  | cons ev resto ih =>
      intro s
      unfold executar_sessao
      cases hf : processar_frame ctx s ev.dets with
      | concedido nivel => rfl
      | continuar s1 =>
          by_cases hq : ev.sair
          · simp [hq]
          · simp [hq, ih s1]

theorem sessao_concedida_ignora_resto (ctx : Contexto) :
    ∀ (evs : List FrameEvento) (s : Estado) (extra : List FrameEvento),
      (executar_sessao ctx s evs).concessao.isSome →
      executar_sessao ctx s (evs ++ extra) = executar_sessao ctx s evs := by
  intro evs
  induction evs with
  | nil =>
      intro s extra h
      simp [executar_sessao] at h
  | cons ev resto ih =>
      intro s extra h
      rw [List.cons_append]
      unfold executar_sessao
      unfold executar_sessao at h
      cases hf : processar_frame ctx s ev.dets with
      | concedido nivel => rfl
      | continuar s1 =>
          rw [hf] at h
          by_cases hq : ev.sair
          · simp [hq] at h
          · simp only [hq, if_false, Bool.false_eq_true] at h ⊢
            rw [ih s1 extra h]

/-- C3: the grant is one-shot.  In every session the capture device is
released exactly once; once the grant event has been emitted the session
result is unchanged by any further input (no further frames are
processed); and when the operator quits after a non-granting frame the
device is released once and no grant event is emitted, whatever input
would have followed. -/
theorem C3_concessao_unica (ctx : Contexto) (s : Estado)
    (evs extra : List FrameEvento) :
    (executar_sessao ctx s evs).liberacoes = 1 ∧
    ((executar_sessao ctx s evs).concessao.isSome →
      executar_sessao ctx s (evs ++ extra) = executar_sessao ctx s evs) ∧
    (∀ (dets : List Detecao) (s1 : Estado) (resto : List FrameEvento),
      processar_frame ctx s dets = .continuar s1 →
      executar_sessao ctx s (⟨dets, true⟩ :: resto) =
        { concessao := none, liberacoes := 1, framesProcessados := 1 }) := by
  refine ⟨sessao_libera_uma_vez ctx evs s,
    sessao_concedida_ignora_resto ctx evs s extra, ?_⟩
  intro dets s1 resto hf
  unfold executar_sessao
  rw [hf]
  rfl

/-- Witness for C3: Alice (authorized, tier "Nivel 1") is granted on the
third consecutive frame; appending another frame does not change the
session outcome, and an operator quit after one non-granting frame ends
the session without a grant. -/
theorem C3_concessao_unica_witness :
    executar_sessao ctxExemplo estadoInicial
        (evsConcessao ++ [⟨[dAlice], false⟩]) =
      executar_sessao ctxExemplo estadoInicial evsConcessao ∧
    executar_sessao ctxExemplo estadoInicial
        (⟨[dBruno], true⟩ :: evsConcessao) =
      { concessao := none, liberacoes := 1, framesProcessados := 1 } :=
  ⟨(C3_concessao_unica ctxExemplo estadoInicial evsConcessao
      [⟨[dAlice], false⟩]).2.1 (by decide),
   (C3_concessao_unica ctxExemplo estadoInicial evsConcessao
      [⟨[dAlice], false⟩]).2.2 [dBruno]
     { acessoConcedidoTempo := none
       tentativasReconhecimento := 1
       ultimoRostoReconhecido := some "55566677788" }
     evsConcessao (by decide)⟩

/-- Counterexample for C5: Bruno is enrolled but in no tier
(`status = "Não Autorizado"`).  Processing one accepted frame of Bruno
from the initial state leaves `tentativas_reconhecimento = 1` and
`ultimo_rosto_reconhecido = Bruno` — the engine does NOT reset the
debounce state on an unauthorized identity; the code simply has no reset
branch after the status lookup (`app.py` lines 348-383). -/
theorem C5_contraexemplo :
    (obter_nivel_e_status "55566677788" ctxExemplo.validacao).2 =
      "Não Autorizado" ∧
    processar_rosto ctxExemplo estadoInicial dBruno =
      .continuar { acessoConcedidoTempo := none
                   tentativasReconhecimento := 1
                   ultimoRostoReconhecido := some "55566677788" } ∧
    processar_rosto ctxExemplo estadoInicial dBruno ≠
      .continuar estadoInicial := by
  exact ⟨by decide, by decide, by decide⟩

/-- C5 (amended): for every frame whose accepted prediction resolves to a
national id whose Access Policy status is not "Autorizado", the decision
engine never emits a grant event; but it does NOT reset the debounce/timer
state — it performs the ordinary debounce update (increment on a repeat,
set-to-1 on a new identity) and leaves the timer field unchanged. -/
theorem C5_nao_autorizado (ctx : Contexto) (s : Estado) (d : Detecao)
    (cpf : String) (hw : MIN_TAMANHO_ROSTO ≤ d.w)
    (hh : MIN_TAMANHO_ROSTO ≤ d.h) (hacc : predicao_aceita ctx.ids d)
    (hres : resolver_cpf ctx d.rotulo = some cpf)
    (hst : (obter_nivel_e_status cpf ctx.validacao).2 ≠ "Autorizado") :
    (∀ nivel, processar_rosto ctx s d ≠ .concedido nivel) ∧
    processar_rosto ctx s d =
      .continuar (if s.ultimoRostoReconhecido = some cpf then
          { s with tentativasReconhecimento := s.tentativasReconhecimento + 1 }
        else
          { s with tentativasReconhecimento := 1
                   ultimoRostoReconhecido := some cpf }) := by
  have hs := tamanho_ok hw hh
  have hchar : processar_rosto ctx s d =
      .continuar (if s.ultimoRostoReconhecido = some cpf then
          { s with tentativasReconhecimento := s.tentativasReconhecimento + 1 }
        else
          { s with tentativasReconhecimento := 1
                   ultimoRostoReconhecido := some cpf }) := by
    unfold processar_rosto
    rw [if_neg hs, if_pos hacc]
    unfold ramo_aceito
    rw [hres]
    exact if_neg (fun hc => hst hc.1)
  refine ⟨?_, hchar⟩
  intro nivel h
  rw [hchar] at h
  exact PassoRosto.noConfusion h

/-- Witness for C5: Bruno, enrolled in no tier. -/
theorem C5_nao_autorizado_witness :
    (∀ nivel, processar_rosto ctxExemplo estadoInicial dBruno ≠
      .concedido nivel) ∧
    processar_rosto ctxExemplo estadoInicial dBruno =
      .continuar (if estadoInicial.ultimoRostoReconhecido =
            some "55566677788" then
          { estadoInicial with tentativasReconhecimento :=
              estadoInicial.tentativasReconhecimento + 1 }
        else
          { estadoInicial with tentativasReconhecimento := 1
                               ultimoRostoReconhecido :=
                                 some "55566677788" }) :=
  C5_nao_autorizado ctxExemplo estadoInicial dBruno "55566677788"
    (by decide) (by decide) (by decide) (by decide) (by decide)

/-- Counterexample for C6: label 2 of the trained model carries the
orphaned token "tok-orfao".  From a state with a previous match recorded,
an accepted orphan prediction resets the timer and the counter but leaves
`ultimo_rosto_reconhecido` unchanged (`app.py` lines 384-386 reset only
two of the three variables) — so the claim that ALL recognition state,
including `last_matched_identity`, is reset is false. -/
theorem C6_contraexemplo :
    resolver_cpf ctxExemplo dOrfao.rotulo = none ∧
    processar_rosto ctxExemplo
        { acessoConcedidoTempo := none
          tentativasReconhecimento := 2
          ultimoRostoReconhecido := some "11122233344" } dOrfao =
      .continuar { acessoConcedidoTempo := none
                   tentativasReconhecimento := 0
                   ultimoRostoReconhecido := some "11122233344" } ∧
    processar_rosto ctxExemplo
        { acessoConcedidoTempo := none
          tentativasReconhecimento := 2
          ultimoRostoReconhecido := some "11122233344" } dOrfao ≠
      .continuar estadoInicial := by
  exact ⟨by decide, by decide, by decide⟩

/-- C6 (amended): an accepted prediction whose label resolves to no
national id in the identity store is handled without error and without a
grant: the engine resets the grant timer and the consecutive-match counter
to their initial values but leaves `ultimo_rosto_reconhecido` unchanged,
and the session continues. -/
theorem C6_rotulo_orfao (ctx : Contexto) (s : Estado) (d : Detecao)
    (hw : MIN_TAMANHO_ROSTO ≤ d.w) (hh : MIN_TAMANHO_ROSTO ≤ d.h)
    (hacc : predicao_aceita ctx.ids d)
    (hres : resolver_cpf ctx d.rotulo = none) :
    processar_rosto ctx s d =
      .continuar { acessoConcedidoTempo := none
                   tentativasReconhecimento := 0
                   ultimoRostoReconhecido := s.ultimoRostoReconhecido } ∧
    (∀ nivel, processar_rosto ctx s d ≠ .concedido nivel) := by
  have hs := tamanho_ok hw hh
  have hchar : processar_rosto ctx s d =
      .continuar { acessoConcedidoTempo := none
                   tentativasReconhecimento := 0
                   ultimoRostoReconhecido := s.ultimoRostoReconhecido } := by
    unfold processar_rosto
    rw [if_neg hs, if_pos hacc]
    unfold ramo_aceito
    rw [hres]
  refine ⟨hchar, ?_⟩
  intro nivel h
  rw [hchar] at h
  exact PassoRosto.noConfusion h

/-- Witness for C6: the orphaned label 2 of `ctxExemplo`. -/
theorem C6_rotulo_orfao_witness :
    processar_rosto ctxExemplo estadoInicial dOrfao =
      .continuar { acessoConcedidoTempo := none
                   tentativasReconhecimento := 0
                   ultimoRostoReconhecido :=
                     estadoInicial.ultimoRostoReconhecido } ∧
    (∀ nivel, processar_rosto ctxExemplo estadoInicial dOrfao ≠
      .concedido nivel) :=
  C6_rotulo_orfao ctxExemplo estadoInicial dOrfao
    (by decide) (by decide) (by decide) (by decide)

/-- C4: evaluation at the failing input.  With a trained model persisted,
running the admin panel's own delete workflow (`admin_app.py`
`excluir_usuario`, which never calls `invalidar_modelo_treinado`) to
successful completion leaves both persisted model artifacts in place,
while the `utils_admin.py` implementation of the same workflow removes
both; the admin panel's add-photos workflow likewise leaves them in
place.  This contradicts the invalidation contract stated in
`utils_admin.py`'s own documentation of `invalidar_modelo_treinado`. -/
theorem C4_admin_app_nao_invalida :
    (AdminApp.excluir_usuario dadosExemplo "11122233344" true).modeloSalvo =
      true ∧
    (AdminApp.excluir_usuario dadosExemplo "11122233344" true).mapaIds =
      true ∧
    (AdminApp.excluir_usuario dadosExemplo "11122233344" true).usuarios =
      [] ∧
    (AdminApp.adicionar_mais_fotos dadosExemplo "11122233344" 3).modeloSalvo =
      true ∧
    (UtilsAdmin.excluir_usuario dadosExemplo "11122233344" true).modeloSalvo =
      false ∧
    (UtilsAdmin.excluir_usuario dadosExemplo "11122233344" true).mapaIds =
      false ∧
    (UtilsAdmin.adicionar_mais_fotos dadosExemplo "11122233344" 3).modeloSalvo =
      false := by
  exact ⟨by decide, by decide, by decide, by decide, by decide, by decide,
    by decide⟩

/-- Counterexample for C7: with Alice's cpf present in the member lists of
both "Nivel 1" and "Nivel 2" (a state the enrollment flows never create but
nothing prevents), the confirmed delete removes her from the identity
table and from "Nivel 1" only: the loop `break`s after the first tier that
contained her, so she remains in the "Nivel 2" list. -/
theorem C7_contraexemplo :
    (UtilsAdmin.excluir_usuario dadosDoisNiveis "11122233344" true).usuarios =
      [] ∧
    (UtilsAdmin.excluir_usuario dadosDoisNiveis "11122233344" true).validacao =
      [("Nivel 1", []), ("Nivel 2", ["11122233344"])] ∧
    "11122233344" ∈ ((UtilsAdmin.excluir_usuario dadosDoisNiveis
      "11122233344" true).validacao.getD 1 ("", [])).2 := by
  exact ⟨by decide, by decide, by decide⟩

theorem remover_cpf_validacao_tudo (cpf : String) :
    ∀ (v : List (String × List String)),
      (v.map (fun p => p.2.count cpf)).sum ≤ 1 →
      ∀ p ∈ remover_cpf_validacao cpf v, cpf ∉ p.2 := by
  intro v
  induction v with
  | nil =>
      intro _ p hp
      simp [remover_cpf_validacao] at hp
  | cons cab resto ih =>
      intro hsum p hp
      rw [List.map_cons, List.sum_cons] at hsum
      by_cases hc : cpf ∈ cab.2
      · have hcpos : cab.2.count cpf ≠ 0 := by
          rw [Ne, List.count_eq_zero]
          exact fun h => h hc
        have hresto : (resto.map (fun p => p.2.count cpf)).sum = 0 := by omega
        have hcab : cab.2.count cpf = 1 := by omega
        simp only [remover_cpf_validacao, if_pos hc] at hp
        rcases List.mem_cons.1 hp with rfl | hmem
        · intro hmem2
          have : (cab.2.erase cpf).count cpf = 0 := by
            rw [List.count_erase_self, hcab]
          exact absurd (List.count_eq_zero.1 this) (fun hn => hn hmem2)
        · intro hmem2
          have hzero : p.2.count cpf = 0 :=
            List.sum_eq_zero_iff.1 hresto (p.2.count cpf)
              (List.mem_map.2 ⟨p, hmem, rfl⟩)
          exact absurd hmem2 (List.count_eq_zero.1 hzero)
      · simp only [remover_cpf_validacao, if_neg hc] at hp
        rcases List.mem_cons.1 hp with rfl | hmem
        · exact hc
        · exact ih (by omega) p hmem

theorem find_apos_eraseP (cpf : String) :
    ∀ (l : List (String × Usuario)),
      l.countP (fun p => p.1 == cpf) ≤ 1 →
      (l.eraseP (fun p => p.1 == cpf)).find? (fun p => p.1 == cpf) = none := by
  intro l
  induction l with
  | nil => intro _; rfl
  | cons cab resto ih =>
      intro h
      cases hc : (cab.1 == cpf) with
      | true =>
          simp only [List.countP_cons, hc, if_true] at h
          have hzero : resto.countP (fun p => p.1 == cpf) = 0 := by omega
          simp only [List.eraseP_cons, hc, cond_true]
          exact List.find?_eq_none.2 fun x hx hpx =>
            absurd hpx (List.countP_eq_zero.1 hzero x hx)
      | false =>
          simp only [List.countP_cons, hc, if_false, Nat.add_zero] at h
          simp only [List.eraseP_cons, hc, cond_false]
          rw [List.find?_cons_of_neg _ (by simp [hc])]
          exact ih h

/-- C7 (amended): a confirmed delete of an enrolled national id removes
the id from the identity table, deletes its photo directory, removes the
id from the FIRST tier membership list containing it (the loop breaks
there, so later tiers are untouched), and invalidates the model, all
before the tables are persisted.  Under the intended single-tier
invariant — the cpf occurs at most once across all tier lists — the cpf is
therefore afterwards absent from every tier list. -/
theorem C7_exclusao_completa (d : Dados) (cpf : String) (u : Usuario)
    (hu : (d.usuarios.find? (fun p => p.1 == cpf)).map (·.2) = some u)
    (hunq : d.usuarios.countP (fun p => p.1 == cpf) ≤ 1)
    (hpast : d.pastas.count u.id ≤ 1)
    (hval : (d.validacao.map (fun p => p.2.count cpf)).sum ≤ 1) :
    (UtilsAdmin.excluir_usuario d cpf true).usuarios.find?
      (fun p => p.1 == cpf) = none ∧
    u.id ∉ (UtilsAdmin.excluir_usuario d cpf true).pastas ∧
    (∀ p ∈ (UtilsAdmin.excluir_usuario d cpf true).validacao, cpf ∉ p.2) ∧
    (UtilsAdmin.excluir_usuario d cpf true).modeloSalvo = false ∧
    (UtilsAdmin.excluir_usuario d cpf true).mapaIds = false := by
  have hr : UtilsAdmin.excluir_usuario d cpf true =
      { usuarios := d.usuarios.eraseP (fun p => p.1 == cpf)
        validacao := remover_cpf_validacao cpf d.validacao
        pastas := d.pastas.erase u.id
        modeloSalvo := false
        mapaIds := false } := by
    unfold UtilsAdmin.excluir_usuario UtilsAdmin.excluir_usuario_com_falha
    rw [hu]
    rfl
  rw [hr]
  refine ⟨find_apos_eraseP cpf d.usuarios hunq, ?_,
    remover_cpf_validacao_tudo cpf d.validacao hval, rfl, rfl⟩
  have : (d.pastas.erase u.id).count u.id = 0 := by
    rw [List.count_erase_self]
    omega
  exact List.count_eq_zero.1 this

/-- Witness for C7: deleting Alice from `dadosExemplo` (a state obeying
the single-tier invariant). -/
theorem C7_exclusao_completa_witness :
    (UtilsAdmin.excluir_usuario dadosExemplo "11122233344" true).usuarios.find?
      (fun p => p.1 == "11122233344") = none ∧
    "tok-alice" ∉
      (UtilsAdmin.excluir_usuario dadosExemplo "11122233344" true).pastas ∧
    (∀ p ∈ (UtilsAdmin.excluir_usuario dadosExemplo
        "11122233344" true).validacao, "11122233344" ∉ p.2) ∧
    (UtilsAdmin.excluir_usuario dadosExemplo
      "11122233344" true).modeloSalvo = false ∧
    (UtilsAdmin.excluir_usuario dadosExemplo
      "11122233344" true).mapaIds = false :=
  C7_exclusao_completa dadosExemplo "11122233344"
    { nome := "Alice", id := "tok-alice" }
    (by decide) (by decide) (by decide) (by decide)

/-- Counterexample for C8: when the photo-directory removal step raises,
the whole delete workflow aborts — the confirmed delete of Alice with a
failing `rmtree` leaves her cpf in the identity table AND in the tier
list, and surfaces the error.  The claim that the remaining destructive
steps are still attempted independently (with the first error surfaced
only after all of them) is therefore false: the three steps share one
`try` block (`utils_admin.py` lines 765-779). -/
theorem C8_contraexemplo :
    UtilsAdmin.excluir_usuario_com_falha dadosExemplo "11122233344"
        true true =
      (dadosExemplo, some "Ocorreu um erro ao excluir o usuário") ∧
    ((UtilsAdmin.excluir_usuario_com_falha dadosExemplo "11122233344"
        true true).1.usuarios.find? (fun p => p.1 == "11122233344")).isSome =
      true ∧
    "11122233344" ∈ ((UtilsAdmin.excluir_usuario_com_falha dadosExemplo
      "11122233344" true true).1.validacao.getD 0 ("", [])).2 ∧
    (UtilsAdmin.excluir_usuario_com_falha dadosExemplo "11122233344"
      true true).1.modeloSalvo = true := by
  exact ⟨by decide, by decide, by decide, by decide⟩

/-- C8 (amended): the three destructive steps of delete-identity run
sequentially inside a single `try` block: when the photo-directory removal
fails, the workflow aborts immediately — the tier-list and identity-table
removals are not attempted, nothing is persisted, the model is not
invalidated, and that first error is surfaced at once; only a failure-free
run performs all the removals and reports no error. -/
theorem C8_falha_aborta (d : Dados) (cpf : String) (u : Usuario)
    (hu : (d.usuarios.find? (fun p => p.1 == cpf)).map (·.2) = some u) :
    UtilsAdmin.excluir_usuario_com_falha d cpf true true =
      (d, some "Ocorreu um erro ao excluir o usuário") ∧
    UtilsAdmin.excluir_usuario_com_falha d cpf true false =
      (invalidar_modelo_treinado
        { usuarios := d.usuarios.eraseP (fun p => p.1 == cpf)
          validacao := remover_cpf_validacao cpf d.validacao
          pastas := d.pastas.erase u.id
          modeloSalvo := d.modeloSalvo
          mapaIds := d.mapaIds }, none) := by
  constructor
  · unfold UtilsAdmin.excluir_usuario_com_falha
    rw [hu]
    rfl
  · unfold UtilsAdmin.excluir_usuario_com_falha
    rw [hu]
    rfl

/-- Witness for C8: Alice in `dadosExemplo`. -/
theorem C8_falha_aborta_witness :
    UtilsAdmin.excluir_usuario_com_falha dadosExemplo "11122233344"
        true true =
      (dadosExemplo, some "Ocorreu um erro ao excluir o usuário") ∧
    UtilsAdmin.excluir_usuario_com_falha dadosExemplo "11122233344"
        true false =
      (invalidar_modelo_treinado
        { usuarios := dadosExemplo.usuarios.eraseP
            (fun p => p.1 == "11122233344")
          validacao := remover_cpf_validacao "11122233344"
            dadosExemplo.validacao
          pastas := dadosExemplo.pastas.erase "tok-alice"
          modeloSalvo := dadosExemplo.modeloSalvo
          mapaIds := dadosExemplo.mapaIds }, none) :=
  C8_falha_aborta dadosExemplo "11122233344"
    { nome := "Alice", id := "tok-alice" } (by decide)

/-- Counterexample for C9: an accepted capture writes `rosto_extraido` —
the COLOR crop of the frame — while the quality filter was run on its
grayscale conversion (`utils_admin.py` lines 514-521); no grayscale
conversion and no square normalization are applied to the stored raster.
Here the quality filter is instantiated with a filter that accepts the
crop, and the written sample is not a grayscale image. -/
theorem C9_contraexemplo :
    tirar_foto (fun _ => true) (Imagem.quadro 0) [caixaExemplo] =
      some (Imagem.recorte (Imagem.quadro 0) caixaExemplo) ∧
    (Imagem.recorte (Imagem.quadro 0) caixaExemplo).ehCinza = false ∧
    Imagem.recorte (Imagem.quadro 0) caixaExemplo ≠
      Imagem.cinza (Imagem.recorte (Imagem.quadro 0) caixaExemplo) := by
  exact ⟨by decide, by decide, by decide⟩

/-- C9 (amended): every photo sample the capture session writes is the
color crop of the current frame to the largest detected box, and its
grayscale conversion is exactly the image that passed the quality filter;
the stored raster itself is neither grayscale-converted nor resized
(normalization happens later, at training-load time). -/
theorem C9_foto_gravada (validar : Imagem → Bool) (frame : Imagem)
    (rostos : List Caixa) (img : Imagem)
    (h : tirar_foto validar frame rostos = some img) :
    ∃ c, maior_rosto rostos = some c ∧
      img = Imagem.recorte frame c ∧
      validar (Imagem.cinza img) = true := by
  unfold tirar_foto at h
  cases hm : maior_rosto rostos with
  | none => rw [hm] at h; cases h
  | some c =>
      rw [hm] at h
      have h2 : (if validar (Imagem.cinza (Imagem.recorte frame c)) = true
          then some (Imagem.recorte frame c) else none) = some img := h
      by_cases hv : validar (Imagem.cinza (Imagem.recorte frame c)) = true
      · rw [if_pos hv] at h2
        cases h2
        exact ⟨c, rfl, rfl, hv⟩
      · rw [if_neg hv] at h2
        cases h2

/-- Witness for C9: a capture on an always-passing filter. -/
theorem C9_foto_gravada_witness :
    ∃ c, maior_rosto [caixaExemplo] = some c ∧
      Imagem.recorte (Imagem.quadro 0) caixaExemplo =
        Imagem.recorte (Imagem.quadro 0) c ∧
      (fun _ => true : Imagem → Bool)
        (Imagem.cinza (Imagem.recorte (Imagem.quadro 0) caixaExemplo)) =
        true :=
  C9_foto_gravada (fun _ => true) (Imagem.quadro 0) [caixaExemplo]
    (Imagem.recorte (Imagem.quadro 0) caixaExemplo) (by decide)

/-- C10: the training set builder re-applies the quality filter to every
stored photo at load time (`app.py` line 140): a readable image file whose
loaded grayscale content fails `validar_qualidade_imagem` contributes zero
training samples, and conversely any file contributing at least one sample
has loaded content that passed the filter at build time. -/
theorem C10_revalidacao (validar : Imagem → Bool)
    (detectar : Imagem → List Caixa) (rotulo : Nat) :
    (∀ (nome : String) (img : Imagem), validar img = false →
      processar_arquivo validar detectar rotulo ⟨nome, some img⟩ = []) ∧
    (∀ arq : Arquivo, processar_arquivo validar detectar rotulo arq ≠ [] →
      ∃ img, arq.conteudo = some img ∧ validar img = true) := by
  constructor
  · intro nome img hv
    unfold processar_arquivo
    by_cases he : extensao_valida nome = true
    · simp [he, hv]
    · simp [he]
  · intro arq hne
    unfold processar_arquivo at hne
    by_cases he : extensao_valida arq.nome = true
    · cases hcon : arq.conteudo with
      | none => rw [hcon] at hne; simp [he] at hne
      | some img =>
          rw [hcon] at hne
          by_cases hv : validar img = true
          · exact ⟨img, rfl, hv⟩
          · simp [he, hv] at hne
    · simp [he] at hne

/-- Witness for C10: a failing filter yields no samples from a readable
file, and with an always-passing filter a contributing file's content
passed the filter. -/
theorem C10_revalidacao_witness :
    processar_arquivo (fun _ => false) (fun _ => [caixaExemplo]) 0
      ⟨"foto.jpg", some (Imagem.quadro 7)⟩ = [] ∧
    ∃ img, (Arquivo.mk "foto.jpg" (some (Imagem.quadro 7))).conteudo =
        some img ∧ (fun _ => true : Imagem → Bool) img = true :=
  ⟨(C10_revalidacao (fun _ => false) (fun _ => [caixaExemplo]) 0).1
      "foto.jpg" (Imagem.quadro 7) (by decide),
   (C10_revalidacao (fun _ => true) (fun _ => [caixaExemplo]) 0).2
      ⟨"foto.jpg", some (Imagem.quadro 7)⟩ (by decide)⟩
